import Mathlib

/-!
Shallow embedding of the Hangfire prioritization engine (src/App.tsx).

Day-keys (`yyyy-mm-dd` strings in the source, compared lexicographically,
which agrees with calendar order) are modelled as integers (day numbers);
instants (`dateAdded`) as integers; JS numbers used as prices and point
counts as integers.
-/

namespace Hangfire

/-- `ItemOption` from src/App.tsx. -/
structure ItemOption where
  id : String
  name : String
  price : Int
  link : Option String
  imageUrl : Option String
deriving Repr, DecidableEq

/-- An entry of `pointHistory`: `{ date: string; points: number }`. -/
structure HistoryEntry where
  date : Int
  points : Int
deriving Repr, DecidableEq

/-- `WishlistItem` from src/App.tsx. -/
structure WishlistItem where
  id : String
  name : String
  price : Int
  link : Option String
  imageUrl : Option String
  points : Int
  dateAdded : Int
  isPurchased : Bool
  datePurchased : Option Int
  options : Option (List ItemOption)
  selectedOptionId : Option String
  pointHistory : Option (List HistoryEntry)
deriving Repr, DecidableEq

/-- `const MAX_DAILY_POINTS = 15`. -/
def MAX_DAILY_POINTS : Int := 15

/-- `getWeeklyPoints` from src/App.tsx: returns 0 when `pointHistory` is
absent or empty; otherwise sums the `points` of every entry whose date is
`>= sevenDaysAgoKey`, where `sevenDaysAgoKey` is the day-key of
`now - 7 * 24h`, i.e. `today - 7`. -/
def getWeeklyPoints (today : Int) (item : WishlistItem) : Int :=
  match item.pointHistory with
  | none => 0
  | some hist =>
    if hist.isEmpty then 0
    else hist.foldl (fun acc e => if today - 7 ≤ e.date then acc + e.points else acc) 0

/-- Result type of `getTrendingStatus`: `'none' | 'trending' | 'hot'`. -/
inductive TrendStatus where
  | noStatus
  | trending
  | hot
deriving Repr, DecidableEq

/-- `getTrendingStatus` from src/App.tsx. -/
def getTrendingStatus (today : Int) (item : WishlistItem) : TrendStatus :=
  let weeklyPoints := getWeeklyPoints today item
  if weeklyPoints ≥ 10 then .hot
  else if weeklyPoints ≥ 5 then .trending
  else .noStatus

/-- The budget-relevant component state: `remainingPoints`, `lastResetDate`. -/
structure BudgetState where
  remainingPoints : Int
  lastResetDate : Int
deriving Repr, DecidableEq

/-- `checkAndResetDailyPoints` from src/App.tsx. -/
def checkAndResetDailyPoints (today : Int) (s : BudgetState) : BudgetState :=
  if s.lastResetDate ≠ today then
    { remainingPoints := MAX_DAILY_POINTS, lastResetDate := today }
  else s

/-- The vote-relevant application state: the item collection and the
remaining daily budget. -/
structure AppState where
  items : List WishlistItem
  remainingPoints : Int
deriving Repr, DecidableEq

/-- The history-update step shared by `addPoint` and `removePoint`:
`newPointHistory.find(entry => entry.date === today)` locates the first
entry for today and applies `f` to its `points` in place; when no entry
exists, `{date: today, points: ifAbsent}` is pushed at the end. -/
def updateTodayEntry (today : Int) (f : Int → Int) (ifAbsent : Int) :
    List HistoryEntry → List HistoryEntry
  | [] => [⟨today, ifAbsent⟩]
  | e :: rest =>
    if e.date = today then ⟨e.date, f e.points⟩ :: rest
    else e :: updateTodayEntry today f ifAbsent rest

/-- The body of `addPoint`'s `prev.map` closure: the item with the voted
id gets `points + 1` and today's history entry incremented (created at `1`
when absent); every other item is returned unchanged. -/
def upvoteItem (today : Int) (id : String) (it : WishlistItem) : WishlistItem :=
  if it.id = id then
    { it with
      points := it.points + 1,
      pointHistory :=
        some (updateTodayEntry today (· + 1) 1 (it.pointHistory.getD [])) }
  else it

/-- `addPoint` from src/App.tsx, restricted to its durable state effects
(the freeze side effects are modelled separately by `voteFreeze`):
when `remainingPoints <= 0` the items are left unchanged; otherwise the
items are mapped through `upvoteItem`. `remainingPoints` is decremented
exactly when it was positive — the source never checks whether the id is
present before consuming the budget point. -/
def addPoint (today : Int) (id : String) (s : AppState) : AppState :=
  { items :=
      if s.remainingPoints ≤ 0 then s.items
      else s.items.map (upvoteItem today id),
    remainingPoints :=
      if s.remainingPoints > 0 then s.remainingPoints - 1
      else s.remainingPoints }

/-- The body of `removePoint`'s `prev.map` closure: the item with the
voted id gets `points := Math.max(0, points - 1)` and today's history
entry set to `Math.max(0, entry.points - 1)` (created at `-1` when
absent); every other item is returned unchanged. -/
def downvoteItem (today : Int) (id : String) (it : WishlistItem) :
    WishlistItem :=
  if it.id = id then
    { it with
      points := max 0 (it.points - 1),
      pointHistory :=
        some (updateTodayEntry today (fun p => max 0 (p - 1)) (-1)
                (it.pointHistory.getD [])) }
  else it

/-- `removePoint` from src/App.tsx, restricted to its durable state
effects: when the id is not found or the target's `points <= 0` the items
are left unchanged; otherwise the items are mapped through `downvoteItem`.
In every case — including both failure paths — `remainingPoints` is
incremented whenever it is below `MAX_DAILY_POINTS`: the source calls
`setRemainingPoints(p => (p < MAX_DAILY_POINTS ? p + 1 : p))`
unconditionally, outside the guarded `setItems` update. -/
def removePoint (today : Int) (id : String) (s : AppState) : AppState :=
  { items :=
      match s.items.find? (fun it => it.id = id) with
      | none => s.items
      | some target =>
        if target.points ≤ 0 then s.items
        else s.items.map (downvoteItem today id),
    remainingPoints :=
      if s.remainingPoints < MAX_DAILY_POINTS then s.remainingPoints + 1
      else s.remainingPoints }

/-- A vote request: Upvote calls `addPoint`, Downvote calls `removePoint`,
each at some day-key and item id. -/
inductive VoteAction where
  | upvote (today : Int) (id : String)
  | downvote (today : Int) (id : String)
deriving Repr, DecidableEq

/-- Apply one vote to the state. -/
def applyVote (a : VoteAction) (s : AppState) : AppState :=
  match a with
  | .upvote today id => addPoint today id s
  | .downvote today id => removePoint today id s

/-- Apply a finite sequence of votes, first action first. -/
def runVotes (acts : List VoteAction) (s : AppState) : AppState :=
  acts.foldl (fun s a => applyVote a s) s

/-- `getCurrentDisplayItem` from src/App.tsx: when `options` and
`selectedOptionId` are both present and the id resolves to an option, the
displayed name/price/link/image come from that option; otherwise the item
itself is displayed. -/
def getCurrentDisplayItem (item : WishlistItem) : WishlistItem :=
  match item.options, item.selectedOptionId with
  | some opts, some selId =>
    match opts.find? (fun opt => opt.id = selId) with
    | some selectedOption =>
      { item with
        name := selectedOption.name,
        price := selectedOption.price,
        link := selectedOption.link,
        imageUrl := selectedOption.imageUrl }
    | none => item
  | _, _ => item

/-- `addOptionToItem` from src/App.tsx (the `setItems` update): appends the
option to the matching item's option list (`[...(item.options || []), option]`)
and sets `selectedOptionId` to the new option's id exactly when
`item.options?.length === 0`, i.e. when the options field is present and
empty; when the field is absent the optional chain yields `undefined`,
the comparison with `0` is false, and `selectedOptionId` is kept. -/
def addOptionToItem (itemId : String) (option : ItemOption)
    (items : List WishlistItem) : List WishlistItem :=
  items.map fun item =>
    if item.id = itemId then
      { item with
        options := some ((item.options.getD []) ++ [option]),
        selectedOptionId :=
          if item.options = some [] then some option.id
          else item.selectedOptionId }
    else item

/-- The record built by `saveNewItem` in src/App.tsx: `points: 0`,
`isPurchased: false`, and no `datePurchased`, `options`,
`selectedOptionId` or `pointHistory` fields. -/
def saveNewItem (id : String) (name : String) (price : Int)
    (link : Option String) (imageUrl : Option String) (dateAdded : Int) :
    WishlistItem :=
  { id := id, name := name, price := price, link := link, imageUrl := imageUrl,
    points := 0, dateAdded := dateAdded, isPurchased := false,
    datePurchased := none, options := none, selectedOptionId := none,
    pointHistory := none }

/-- The sort modes `'points' | 'date' | 'price'`. -/
inductive SortMode where
  | points
  | date
  | price
deriving Repr, DecidableEq

/-- `sortedItems` from src/App.tsx: picks the frozen snapshot when frozen,
filters purchased items when the flag is set, then stably sorts by the
mode's comparator — `(a, b) => b.points - a.points` for points,
`(a, b) => dateAdded(b) - dateAdded(a)` for date, and
`(a, b) => b.price - a.price` for price, each a descending comparison on
the item's own field. JS `Array.prototype.sort` with a consistent
comparator is required to be a stable sort placing `a` before `b` when the
comparator is `<= 0`, which determines the output uniquely; it is modelled
by the stable `List.insertionSort` with the relation `cmp a b ≤ 0`. -/
def sortedItems (sortMode : SortMode) (hidePurchased : Bool)
    (isSortingFrozen : Bool) (frozenItems items : List WishlistItem) :
    List WishlistItem :=
  let sourceItems := if isSortingFrozen then frozenItems else items
  let filtered :=
    if hidePurchased then sourceItems.filter (fun i => !i.isPurchased)
    else sourceItems
  match sortMode with
  | .points => List.insertionSort (fun a b => b.points ≤ a.points) filtered
  | .date => List.insertionSort (fun a b => b.dateAdded ≤ a.dateAdded) filtered
  | .price => List.insertionSort (fun a b => b.price ≤ a.price) filtered

/-- The freeze-relevant view state: the `isSortingFrozen` flag together
with the fire times of every `setTimeout(() => setIsSortingFrozen(false), 1000)`
callback that has been scheduled and not yet fired. -/
structure FreezeState where
  isSortingFrozen : Bool
  pendingTimers : List Int
deriving Repr, DecidableEq

/-- The freeze side effect of a vote at time `t` under sort mode `points`
(`addPoint`/`removePoint` lines 474-478/530-534 and 522-526/571-576 of
src/App.tsx): set `isSortingFrozen := true` and schedule a new unfreeze
callback at `t + cooldown`. No `clearTimeout` occurs anywhere in the
source, so previously scheduled callbacks stay pending. -/
def voteFreeze (cooldown t : Int) (fs : FreezeState) : FreezeState :=
  { isSortingFrozen := true,
    pendingTimers := fs.pendingTimers ++ [t + cooldown] }

/-- Advance the clock to time `t`: every pending callback whose fire time
is `≤ t` runs, and each one sets `isSortingFrozen := false`. -/
def elapse (t : Int) (fs : FreezeState) : FreezeState :=
  { isSortingFrozen :=
      if fs.pendingTimers.any (fun ft => ft ≤ t) then false
      else fs.isSortingFrozen,
    pendingTimers := fs.pendingTimers.filter (fun ft => ¬ ft ≤ t) }

/-- A plain item used to build concrete test states: fields other than the
id, the points and the history are fixed defaults. -/
def mkItem (id : String) (points : Int)
    (pointHistory : Option (List HistoryEntry)) : WishlistItem :=
  { id := id, name := id, price := 0, link := none, imageUrl := none,
    points := points, dateAdded := 0, isPurchased := false,
    datePurchased := none, options := none, selectedOptionId := none,
    pointHistory := pointHistory }

/-- Weekly points as claim C5 words them: the sum of the deltas of exactly
those history entries whose day-key lies in the inclusive 7-day window
ending at `today`, i.e. in `[today - 6, today]` (an entry dated exactly 7
days before `today` is outside the window). Stated only to be compared
with `getWeeklyPoints`, which is translated from the source. -/
def claimWeeklyPoints (today : Int) (item : WishlistItem) : Int :=
  (((item.pointHistory.getD []).filter
      (fun e => today - 6 ≤ e.date && e.date ≤ today)).map
    (fun e => e.points)).sum

/-- Scenario-D item: history deltas 6 at day `D-2` and 5 at day `D-6`,
with `D = 10`. -/
def itemScenarioD : WishlistItem := mkItem "d" 11 (some [⟨8, 6⟩, ⟨4, 5⟩])

/-- C5 counterexample item: a single history entry dated exactly 7 days
before the evaluation day `D = 10`. -/
def itemC5 : WishlistItem := mkItem "c" 6 (some [⟨3, 6⟩])

/-- Folding the guarded accumulation of `getWeeklyPoints` equals the sum of
the deltas of the entries passing the guard. -/
theorem foldl_guard_eq_sum (today : Int) (l : List HistoryEntry) (init : Int) :
    l.foldl (fun acc e => if today - 7 ≤ e.date then acc + e.points else acc)
        init =
      init + ((l.filter (fun e => today - 7 ≤ e.date)).map
        (fun e => e.points)).sum := by
  induction l generalizing init with
  | nil => simp
  | cons e rest ih =>
    rw [List.foldl_cons, List.filter_cons]
    by_cases h : today - 7 ≤ e.date
    · rw [if_pos h, ih, if_pos (by simp [h]), List.map_cons, List.sum_cons]
      ring
    · rw [if_neg h, ih, if_neg (by simp [h])]

/-- C5 (amended): `getWeeklyPoints` at day `D` sums exactly the history
deltas of the entries whose day-key is `≥ D - 7`: the window has eight
calendar day-keys `D-7 .. D` inclusive (plus any future-dated entries),
so an entry dated 10 days before `D` contributes nothing but an entry
dated exactly 7 days before `D` does contribute; deltas are summed as-is
with no clamping of negative contributions. -/
theorem getWeeklyPoints_eq_sum_since_day_minus_7 (today : Int)
    (item : WishlistItem) :
    getWeeklyPoints today item =
      (((item.pointHistory.getD []).filter
          (fun e => today - 7 ≤ e.date)).map (fun e => e.points)).sum := by
  unfold getWeeklyPoints
  match h : item.pointHistory with
  | none => simp
  | some hist =>
    by_cases he : hist.isEmpty
    · simp [he, List.isEmpty_iff.mp he]
    · simp only [he, if_false, Option.getD_some]
      simpa using foldl_guard_eq_sum today hist 0

/-- C5 counterexample: on the item whose only history entry is dated
exactly 7 days before the evaluation day `D = 10`, the source's
`getWeeklyPoints` returns 6 — the entry is inside the source's window —
while the claim's inclusive 7-day window ending at `D` excludes it and
would give 0. -/
theorem getWeeklyPoints_includes_day_minus_7 :
    getWeeklyPoints 10 itemC5 = 6 ∧ claimWeeklyPoints 10 itemC5 = 0 ∧
      getWeeklyPoints 10 itemC5 ≠ claimWeeklyPoints 10 itemC5 := by
  refine ⟨by decide, by decide, by decide⟩

/-- C6: `getTrendingStatus` classifies weekly points `w` as hot when
`w ≥ 10`, trending when `5 ≤ w < 10`, and none otherwise; and the
Scenario-D item (deltas 6 at `D-2` and 5 at `D-6`, evaluated at `D = 10`)
has weekly points 11 and classifies as hot. -/
theorem getTrendingStatus_thresholds (today : Int) (item : WishlistItem) :
    (getTrendingStatus today item = .hot ↔
      10 ≤ getWeeklyPoints today item) ∧
    (getTrendingStatus today item = .trending ↔
      5 ≤ getWeeklyPoints today item ∧ getWeeklyPoints today item < 10) ∧
    (getTrendingStatus today item = .noStatus ↔
      getWeeklyPoints today item < 5) ∧
    (getWeeklyPoints 10 itemScenarioD = 11 ∧
      getTrendingStatus 10 itemScenarioD = .hot) := by
  have hw : getTrendingStatus today item =
      (if getWeeklyPoints today item ≥ 10 then .hot
       else if getWeeklyPoints today item ≥ 5 then .trending
       else .noStatus) := rfl
  refine ⟨?_, ?_, ?_, by decide, by decide⟩ <;> rw [hw] <;>
    split_ifs with h1 h2 <;> simp <;> omega

/-- The C1 invariant: the remaining budget lies within
`[0, MAX_DAILY_POINTS]` and every item's points field is non-negative. -/
def BudgetInv (s : AppState) : Prop :=
  0 ≤ s.remainingPoints ∧ s.remainingPoints ≤ MAX_DAILY_POINTS ∧
    ∀ it ∈ s.items, 0 ≤ it.points

instance (s : AppState) : Decidable (BudgetInv s) := by
  unfold BudgetInv
  exact inferInstance

/-- One vote — upvote or downvote, any day, any id — preserves the C1
invariant. -/
theorem applyVote_preserves_budgetInv (a : VoteAction) (s : AppState)
    (h : BudgetInv s) : BudgetInv (applyVote a s) := by
  obtain ⟨h0, hM, hpts⟩ := h
  cases a with
  | upvote today id =>
    refine ⟨?_, ?_, ?_⟩
    · show 0 ≤ if s.remainingPoints > 0 then s.remainingPoints - 1
        else s.remainingPoints
      split <;> omega
    · show (if s.remainingPoints > 0 then s.remainingPoints - 1
        else s.remainingPoints) ≤ MAX_DAILY_POINTS
      split <;> omega
    · intro it' hit'
      have hmem : it' ∈ (if s.remainingPoints ≤ 0 then s.items
          else s.items.map (upvoteItem today id)) := hit'
      split at hmem
      · exact hpts it' hmem
      · obtain ⟨it, hit, rfl⟩ := List.mem_map.mp hmem
        have hp := hpts it hit
        unfold upvoteItem
        split <;> ((try simp); omega)
  | downvote today id =>
    refine ⟨?_, ?_, ?_⟩
    · show 0 ≤ if s.remainingPoints < MAX_DAILY_POINTS then
        s.remainingPoints + 1 else s.remainingPoints
      split <;> omega
    · show (if s.remainingPoints < MAX_DAILY_POINTS then
        s.remainingPoints + 1 else s.remainingPoints) ≤ MAX_DAILY_POINTS
      split <;> omega
    · intro it' hit'
      have hmem : it' ∈ (match s.items.find? (fun it => it.id = id) with
          | none => s.items
          | some target =>
            if target.points ≤ 0 then s.items
            else s.items.map (downvoteItem today id)) := hit'
      split at hmem
      · exact hpts it' hmem
      · split at hmem
        · exact hpts it' hmem
        · obtain ⟨it, hit, rfl⟩ := List.mem_map.mp hmem
          have hp := hpts it hit
          unfold downvoteItem
          split <;> ((try simp); (try omega))

/-- C1: for every initial state whose remaining budget lies in
`[0, MAX_DAILY_POINTS]` and whose items all have non-negative points, and
for every finite sequence of Upvote (`addPoint`) and Downvote
(`removePoint`) calls with arbitrary day-keys and item ids, the remaining
budget stays within `[0, MAX_DAILY_POINTS]` and every item's points field
stays non-negative — after each call, since every prefix of a sequence is
itself a sequence. -/
theorem runVotes_preserves_budgetInv (s : AppState) (h : BudgetInv s)
    (acts : List VoteAction) : BudgetInv (runVotes acts s) := by
  induction acts generalizing s with
  | nil => exact h
  | cons a rest ih => exact ih _ (applyVote_preserves_budgetInv a s h)

/-- C1 witness: a concrete two-item state satisfying the invariant and a
concrete vote sequence exercising both operations, both failure paths
included. -/
theorem runVotes_preserves_budgetInv_witness :
    BudgetInv { items := [mkItem "a" 0 none, mkItem "b" 1 none],
                remainingPoints := 1 } ∧
      BudgetInv (runVotes
        [VoteAction.upvote 0 "a", VoteAction.upvote 0 "a",
         VoteAction.downvote 0 "a", VoteAction.downvote 0 "a",
         VoteAction.downvote 0 "b"]
        { items := [mkItem "a" 0 none, mkItem "b" 1 none],
          remainingPoints := 1 }) :=
  ⟨by decide, runVotes_preserves_budgetInv _ (by decide) _⟩

/-- C2 counterexample state: a single item with id `y` and zero points,
history recorded on day 0, and the daily budget fully spent. -/
def stateC2 : AppState :=
  { items := [mkItem "y" 0 (some [⟨0, 3⟩])], remainingPoints := 0 }

/-- C2 counterexample: Downvote on the zero-point item `y` leaves the item
collection unchanged but does NOT leave `remainingPoints` unchanged — the
budget is refunded from 0 to 1, because the source runs the refund
unconditionally, outside the guarded item update. -/
theorem removePoint_zeroPoints_changes_budget :
    (mkItem "y" 0 (some [⟨0, 3⟩])).points = 0 ∧
    (removePoint 0 "y" stateC2).items = stateC2.items ∧
    stateC2.remainingPoints = 0 ∧
    (removePoint 0 "y" stateC2).remainingPoints = 1 := by decide

/-- C2 (amended): Downvote on an item that resolves to a target with zero
points leaves every item — fields and history — unchanged, but still
refunds the budget: `remainingPoints` becomes `remainingPoints + 1`
whenever it is below `MAX_DAILY_POINTS`, and is unchanged only when the
budget is already full. -/
theorem removePoint_zeroPoints (today : Int) (id : String) (s : AppState)
    (y : WishlistItem)
    (hfind : s.items.find? (fun it => it.id = id) = some y)
    (h0 : y.points = 0) :
    (removePoint today id s).items = s.items ∧
    (removePoint today id s).remainingPoints =
      (if s.remainingPoints < MAX_DAILY_POINTS then s.remainingPoints + 1
       else s.remainingPoints) := by
  refine ⟨?_, rfl⟩
  have hitems : (removePoint today id s).items =
      (match s.items.find? (fun it => it.id = id) with
        | none => s.items
        | some target =>
          if target.points ≤ 0 then s.items
          else s.items.map (downvoteItem today id)) := rfl
  rw [hitems, hfind]
  simp [h0]

/-- C2 witness: the amended statement applied to the concrete C2 state. -/
theorem removePoint_zeroPoints_witness :
    (removePoint 0 "y" stateC2).items = stateC2.items ∧
    (removePoint 0 "y" stateC2).remainingPoints =
      (if stateC2.remainingPoints < MAX_DAILY_POINTS then
        stateC2.remainingPoints + 1
       else stateC2.remainingPoints) :=
  removePoint_zeroPoints 0 "y" stateC2 (mkItem "y" 0 (some [⟨0, 3⟩]))
    (by decide) (by decide)

/-- C3 counterexample state: a single item with id `a` and a half-spent
budget; the voted id `zzz` is not present. -/
def stateC3 : AppState :=
  { items := [mkItem "a" 2 none], remainingPoints := 5 }

/-- C3 counterexample: voting on an id that is not present leaves the item
collection unchanged, but Upvote still consumes a budget point (5 becomes
4) and Downvote still refunds one (5 becomes 6), contradicting the claim
that `remainingPoints` is unchanged. -/
theorem vote_missing_id_changes_budget :
    (∀ it ∈ stateC3.items, it.id ≠ "zzz") ∧
    (addPoint 0 "zzz" stateC3).items = stateC3.items ∧
    (removePoint 0 "zzz" stateC3).items = stateC3.items ∧
    stateC3.remainingPoints = 5 ∧
    (addPoint 0 "zzz" stateC3).remainingPoints = 4 ∧
    (removePoint 0 "zzz" stateC3).remainingPoints = 6 := by decide

/-- Mapping `upvoteItem` over a list in which no item carries the voted id
is the identity. -/
theorem map_upvoteItem_of_absent (today : Int) (id : String)
    (l : List WishlistItem) (habs : ∀ it ∈ l, it.id ≠ id) :
    l.map (upvoteItem today id) = l := by
  induction l with
  | nil => rfl
  | cons it rest ih =>
    rw [List.map_cons, ih (fun x hx => habs x (List.mem_cons_of_mem _ hx))]
    unfold upvoteItem
    rw [if_neg (habs it (List.mem_cons_self _ _))]

/-- C3 (amended): Upvote and Downvote on an id not present in the item
collection leave the items unchanged, but the budget still moves: Upvote
decrements `remainingPoints` whenever it is positive, and Downvote
increments it whenever it is below `MAX_DAILY_POINTS`. -/
theorem vote_missing_id (today : Int) (id : String) (s : AppState)
    (habs : ∀ it ∈ s.items, it.id ≠ id) :
    (addPoint today id s).items = s.items ∧
    (addPoint today id s).remainingPoints =
      (if s.remainingPoints > 0 then s.remainingPoints - 1
       else s.remainingPoints) ∧
    (removePoint today id s).items = s.items ∧
    (removePoint today id s).remainingPoints =
      (if s.remainingPoints < MAX_DAILY_POINTS then s.remainingPoints + 1
       else s.remainingPoints) := by
  have hfind : s.items.find? (fun it => it.id = id) = none := by
    rw [List.find?_eq_none]
    intro it hit
    simpa using habs it hit
  refine ⟨?_, rfl, ?_, rfl⟩
  · show (if s.remainingPoints ≤ 0 then s.items
      else s.items.map (upvoteItem today id)) = s.items
    split
    · rfl
    · exact map_upvoteItem_of_absent today id s.items habs
  · have hitems : (removePoint today id s).items =
        (match s.items.find? (fun it => it.id = id) with
          | none => s.items
          | some target =>
            if target.points ≤ 0 then s.items
            else s.items.map (downvoteItem today id)) := rfl
    rw [hitems, hfind]

/-- C3 witness: the amended statement applied to the concrete C3 state. -/
theorem vote_missing_id_witness :
    (addPoint 0 "zzz" stateC3).items = stateC3.items ∧
    (addPoint 0 "zzz" stateC3).remainingPoints =
      (if stateC3.remainingPoints > 0 then stateC3.remainingPoints - 1
       else stateC3.remainingPoints) ∧
    (removePoint 0 "zzz" stateC3).items = stateC3.items ∧
    (removePoint 0 "zzz" stateC3).remainingPoints =
      (if stateC3.remainingPoints < MAX_DAILY_POINTS then
        stateC3.remainingPoints + 1
       else stateC3.remainingPoints) :=
  vote_missing_id 0 "zzz" stateC3 (by decide)

/-- When no history entry carries today's day-key, the vote's history
update appends a fresh entry holding the absent-case delta at the end. -/
theorem updateTodayEntry_of_absent (today : Int) (f : Int → Int) (d : Int)
    (h : List HistoryEntry) (habs : ∀ e ∈ h, e.date ≠ today) :
    updateTodayEntry today f d h = h ++ [⟨today, d⟩] := by
  induction h with
  | nil => rfl
  | cons e rest ih =>
    simp only [updateTodayEntry]
    rw [if_neg (habs e (List.mem_cons_self _ _)),
      ih (fun x hx => habs x (List.mem_cons_of_mem _ hx))]
    rfl

/-- The vote's history update rewrites the first entry carrying today's
day-key in place and leaves everything else untouched. -/
theorem updateTodayEntry_of_found (today : Int) (f : Int → Int) (d : Int)
    (h₁ h₂ : List HistoryEntry) (p : Int)
    (habs : ∀ e ∈ h₁, e.date ≠ today) :
    updateTodayEntry today f d (h₁ ++ ⟨today, p⟩ :: h₂) =
      h₁ ++ ⟨today, f p⟩ :: h₂ := by
  induction h₁ with
  | nil => simp [updateTodayEntry]
  | cons e rest ih =>
    simp only [List.cons_append, updateTodayEntry, List.append_eq]
    rw [if_neg (habs e (List.mem_cons_self _ _)),
      ih (fun x hx => habs x (List.mem_cons_of_mem _ hx))]

/-- Mapping `downvoteItem` over a list in which no item carries the voted
id is the identity. -/
theorem map_downvoteItem_of_absent (today : Int) (id : String)
    (l : List WishlistItem) (habs : ∀ it ∈ l, it.id ≠ id) :
    l.map (downvoteItem today id) = l := by
  induction l with
  | nil => rfl
  | cons it rest ih =>
    rw [List.map_cons, ih (fun x hx => habs x (List.mem_cons_of_mem _ hx))]
    unfold downvoteItem
    rw [if_neg (habs it (List.mem_cons_self _ _))]

/-- On a state whose item list is `pre ++ y :: post` with the voted id
carried only by `y`, a successful Downvote maps exactly `y` through
`downvoteItem`. -/
theorem removePoint_items_of_present (today : Int) (y : WishlistItem)
    (pre post : List WishlistItem) (r : Int)
    (hpre : ∀ it ∈ pre, it.id ≠ y.id)
    (hpost : ∀ it ∈ post, it.id ≠ y.id)
    (hpos : 0 < y.points) :
    (removePoint today y.id
        { items := pre ++ y :: post, remainingPoints := r }).items =
      pre ++ downvoteItem today y.id y :: post := by
  have hfindpre : pre.find? (fun it => it.id = y.id) = none := by
    rw [List.find?_eq_none]
    intro it hit
    simpa using hpre it hit
  have hfind : (pre ++ y :: post).find? (fun it => it.id = y.id) = some y := by
    rw [List.find?_append, hfindpre]
    simp [List.find?_cons_of_pos]
  have hitems : (removePoint today y.id
      { items := pre ++ y :: post, remainingPoints := r }).items =
      (match (pre ++ y :: post).find? (fun it => it.id = y.id) with
        | none => pre ++ y :: post
        | some target =>
          if target.points ≤ 0 then pre ++ y :: post
          else (pre ++ y :: post).map (downvoteItem today y.id)) := rfl
  rw [hitems, hfind]
  show (if y.points ≤ 0 then pre ++ y :: post
    else (pre ++ y :: post).map (downvoteItem today y.id)) =
      pre ++ downvoteItem today y.id y :: post
  rw [if_neg (by omega), List.map_append, List.map_cons,
    map_downvoteItem_of_absent today y.id pre hpre,
    map_downvoteItem_of_absent today y.id post hpost]

/-- C4 (amended): a successful Downvote on the item carrying the voted id
decrements its `points` by 1 and updates today's history entry — creating
it at `-1` when no entry for today exists, but decrementing an existing
entry WITH clamping at the per-entry level (`Math.max(0, entry - 1)`), so
an existing entry currently at 0 stays 0 rather than going to -1. -/
theorem removePoint_history_update (today : Int) (y : WishlistItem)
    (pre post : List WishlistItem) (r : Int)
    (hpre : ∀ it ∈ pre, it.id ≠ y.id)
    (hpost : ∀ it ∈ post, it.id ≠ y.id)
    (hpos : 0 < y.points) :
    ((∀ e ∈ y.pointHistory.getD [], e.date ≠ today) →
      (removePoint today y.id
          { items := pre ++ y :: post, remainingPoints := r }).items =
        pre ++
          { y with
            points := y.points - 1,
            pointHistory :=
              some (y.pointHistory.getD [] ++ [⟨today, -1⟩]) } :: post) ∧
    (∀ h₁ p h₂, y.pointHistory.getD [] = h₁ ++ ⟨today, p⟩ :: h₂ →
      (∀ e ∈ h₁, e.date ≠ today) →
      (removePoint today y.id
          { items := pre ++ y :: post, remainingPoints := r }).items =
        pre ++
          { y with
            points := y.points - 1,
            pointHistory :=
              some (h₁ ++ ⟨today, max 0 (p - 1)⟩ :: h₂) } :: post) := by
  have base := removePoint_items_of_present today y pre post r hpre hpost hpos
  have hdv : downvoteItem today y.id y =
      { y with
        points := y.points - 1,
        pointHistory :=
          some (updateTodayEntry today (fun p => max 0 (p - 1)) (-1)
                  (y.pointHistory.getD [])) } := by
    unfold downvoteItem
    rw [if_pos rfl, (by omega : max 0 (y.points - 1) = y.points - 1)]
  constructor
  · intro habs
    rw [base, hdv,
      updateTodayEntry_of_absent today (fun p => max 0 (p - 1)) (-1)
        (y.pointHistory.getD []) habs]
  · intro h₁ p h₂ hsplit habs1
    rw [base, hdv, hsplit,
      updateTodayEntry_of_found today (fun q => max 0 (q - 1)) (-1)
        h₁ h₂ p habs1]

/-- C4 counterexample state: item `x` has 5 points and an existing history
entry for today (day 0) currently at 0. -/
def stateC4 : AppState :=
  { items := [mkItem "x" 5 (some [⟨0, 0⟩])], remainingPoints := 15 }

/-- C4 counterexample: Downvote succeeds (points drop from 5 to 4) but the
existing today-entry at 0 stays 0 — the source clamps with
`Math.max(0, entry - 1)` — instead of becoming -1 as the claim states. -/
theorem removePoint_clamps_existing_entry :
    (removePoint 0 "x" stateC4).items.map (fun it => it.points) = [4] ∧
    (removePoint 0 "x" stateC4).items.map (fun it => it.pointHistory) =
      [some [⟨0, 0⟩]] ∧
    (removePoint 0 "x" stateC4).items.map (fun it => it.pointHistory) ≠
      [some [⟨0, -1⟩]] := by decide

/-- C4 witness: the amended statement's existing-entry case applied to the
concrete C4 item, whose today-entry at 0 stays clamped at 0. -/
theorem removePoint_history_update_witness :
    (removePoint 0 "x"
        { items := [mkItem "x" 5 (some [⟨0, 0⟩])], remainingPoints := 15 }).items =
      [{ mkItem "x" 5 (some [⟨0, 0⟩]) with
         points := 4,
         pointHistory := some [⟨0, 0⟩] }] :=
  (removePoint_history_update 0 (mkItem "x" 5 (some [⟨0, 0⟩])) [] [] 15
      (by decide) (by decide) (by decide)).2 [] 0 [] (by decide) (by decide)

/-- C7 counterexample freeze run: a vote at time 0 and a second vote at
time 500, cooldown 1000, starting unfrozen with no pending timers. -/
def freezeC7 : FreezeState :=
  voteFreeze 1000 500 (voteFreeze 1000 0
    { isSortingFrozen := false, pendingTimers := [] })

/-- C7 counterexample: after votes at t = 0 and t = 500 ms with a 1000 ms
cooldown, two independent timers are pending (at 1000 and 1500); the first
one fires at t = 1000 and unfreezes the view — the view is NOT left frozen
until t = 1500 as the claim states. -/
theorem freeze_unfreezes_at_first_timer :
    freezeC7.pendingTimers = [1000, 1500] ∧
    (elapse 1000 freezeC7).isSortingFrozen = false := by decide

/-- C7 (amended): each vote while frozen schedules a NEW independent
cooldown timer without cancelling the pending one (no `clearTimeout` in
the source), so the view unfreezes when the EARLIEST pending timer fires:
after votes at `t₁ ≤ t₂` the view is frozen strictly before
`t₁ + cooldown` and unfrozen from `t₁ + cooldown` on — not from
`t₂ + cooldown`. -/
theorem freeze_unfreezes_at_earliest_timer (cooldown t₁ t₂ u : Int)
    (h12 : t₁ ≤ t₂) :
    (u < t₁ + cooldown →
      (elapse u (voteFreeze cooldown t₂ (voteFreeze cooldown t₁
        { isSortingFrozen := false,
          pendingTimers := [] }))).isSortingFrozen = true) ∧
    (t₁ + cooldown ≤ u →
      (elapse u (voteFreeze cooldown t₂ (voteFreeze cooldown t₁
        { isSortingFrozen := false,
          pendingTimers := [] }))).isSortingFrozen = false) := by
  have hfs : voteFreeze cooldown t₂ (voteFreeze cooldown t₁
      { isSortingFrozen := false, pendingTimers := [] }) =
      { isSortingFrozen := true,
        pendingTimers := [t₁ + cooldown, t₂ + cooldown] } := rfl
  rw [hfs]
  constructor
  · intro hu
    show (if [t₁ + cooldown, t₂ + cooldown].any (fun ft => ft ≤ u) = true
      then false else true) = true
    rw [if_neg]
    simp only [List.any_cons, List.any_nil, Bool.or_false, Bool.or_eq_true,
      decide_eq_true_eq]
    omega
  · intro hu
    show (if [t₁ + cooldown, t₂ + cooldown].any (fun ft => ft ≤ u) = true
      then false else true) = false
    rw [if_pos]
    simp only [List.any_cons, List.any_nil, Bool.or_false, Bool.or_eq_true,
      decide_eq_true_eq]
    omega

/-- C7 witness: the amended statement at cooldown 1000, votes at 0 and
500, observed at time 999 — still strictly before the earliest timer. -/
theorem freeze_unfreezes_at_earliest_timer_witness :
    ((999 : Int) < 0 + 1000 →
      (elapse 999 (voteFreeze 1000 500 (voteFreeze 1000 0
        { isSortingFrozen := false,
          pendingTimers := [] }))).isSortingFrozen = true) ∧
    ((0 : Int) + 1000 ≤ 999 →
      (elapse 999 (voteFreeze 1000 500 (voteFreeze 1000 0
        { isSortingFrozen := false,
          pendingTimers := [] }))).isSortingFrozen = false) :=
  freeze_unfreezes_at_earliest_timer 1000 0 500 999 (by decide)

/-- C9: `checkAndResetDailyPoints` is idempotent — calling it twice with
the same day-key equals calling it once, so the second call changes
neither `remainingPoints` nor `lastResetDate`. -/
theorem checkAndResetDailyPoints_idempotent (today : Int) (s : BudgetState) :
    checkAndResetDailyPoints today (checkAndResetDailyPoints today s) =
      checkAndResetDailyPoints today s := by
  unfold checkAndResetDailyPoints
  by_cases h : s.lastResetDate = today <;> simp [h]

/-- C8 counterexample items: `A` costs 10 itself but its selected option
costs 1; `B` costs 5 with no options. -/
def itemA : WishlistItem :=
  { mkItem "A" 0 none with
    price := 10,
    options := some [{ id := "o1", name := "optA", price := 1,
                       link := none, imageUrl := none }],
    selectedOptionId := some "o1" }

/-- C8 counterexample companion item. -/
def itemB : WishlistItem := { mkItem "B" 0 none with price := 5 }

/-- C8 counterexample: under the price sort mode the view orders `A`
(own price 10, displayed price 1) before `B` (own and displayed price 5),
which is not descending in the displayed (post-projection) price — the
comparator reads the parent item's own `price` field, not the projected
one. -/
theorem sortedItems_price_ignores_projection :
    sortedItems .price false false [] [itemA, itemB] = [itemA, itemB] ∧
    (getCurrentDisplayItem itemA).price = 1 ∧
    (getCurrentDisplayItem itemB).price = 5 := by decide

/-- C8 (amended): under sort mode PriceDesc the view is a permutation of
the (frozen-or-live, optionally purchase-filtered) source that is pairwise
descending in the item's OWN `price` field — the pre-projection price —
rather than in the displayed price. -/
theorem sortedItems_price_sorts_by_own_price (hidePurchased isSortingFrozen : Bool)
    (frozenItems items : List WishlistItem) :
    (sortedItems .price hidePurchased isSortingFrozen frozenItems
        items).Pairwise (fun a b => b.price ≤ a.price) ∧
    (sortedItems .price hidePurchased isSortingFrozen frozenItems
        items).Perm
      (let sourceItems := if isSortingFrozen then frozenItems else items
       if hidePurchased then sourceItems.filter (fun i => !i.isPurchased)
       else sourceItems) := by
  haveI : IsTotal WishlistItem (fun a b => b.price ≤ a.price) :=
    ⟨fun a b => le_total b.price a.price⟩
  haveI : IsTrans WishlistItem (fun a b => b.price ≤ a.price) :=
    ⟨fun _ _ _ hab hbc => le_trans hbc hab⟩
  exact ⟨List.sorted_insertionSort _ _, List.perm_insertionSort _ _⟩

/-- C10: `addOptionToItem` auto-selects the added option as main exactly
when the item's options field is the explicitly empty list; when the field
is absent — as on every item built by `saveNewItem`, which omits it — the
first added option leaves `selectedOptionId` unset, and an item without a
selected option keeps displaying its own name/price/link/image. -/
theorem addOptionToItem_autoselect (itemId : String) (opt : ItemOption)
    (it : WishlistItem) (nid nm : String) (pr : Int) (lk im : Option String)
    (da : Int) (hid : it.id = itemId) :
    (it.options = some [] →
      addOptionToItem itemId opt [it] =
        [{ it with
           options := some [opt],
           selectedOptionId := some opt.id }]) ∧
    (it.options = none →
      addOptionToItem itemId opt [it] =
        [{ it with options := some [opt] }]) ∧
    ({ it with options := some [opt] } : WishlistItem).selectedOptionId =
      it.selectedOptionId ∧
    ((saveNewItem nid nm pr lk im da).options = none ∧
      (saveNewItem nid nm pr lk im da).selectedOptionId = none) ∧
    (it.selectedOptionId = none →
      getCurrentDisplayItem { it with options := some [opt] } =
        { it with options := some [opt] }) := by
  refine ⟨?_, ?_, rfl, ⟨rfl, rfl⟩, ?_⟩
  · intro h
    simp [addOptionToItem, hid, h]
  · intro h
    simp [addOptionToItem, hid, h]
  · intro h
    simp [getCurrentDisplayItem, h]

/-- C10 witness: an item freshly built by `saveNewItem` (options field
absent) receives its first option without it being auto-selected, and
still displays its own fields. -/
theorem addOptionToItem_autoselect_witness :
    ((saveNewItem "i1" "n" 3 none none 0).options = some [] →
      addOptionToItem "i1" ⟨"o1", "on", 2, none, none⟩
          [saveNewItem "i1" "n" 3 none none 0] =
        [{ saveNewItem "i1" "n" 3 none none 0 with
           options := some [⟨"o1", "on", 2, none, none⟩],
           selectedOptionId := some "o1" }]) ∧
    ((saveNewItem "i1" "n" 3 none none 0).options = none →
      addOptionToItem "i1" ⟨"o1", "on", 2, none, none⟩
          [saveNewItem "i1" "n" 3 none none 0] =
        [{ saveNewItem "i1" "n" 3 none none 0 with
           options := some [⟨"o1", "on", 2, none, none⟩] }]) ∧
    ({ saveNewItem "i1" "n" 3 none none 0 with
       options := some [⟨"o1", "on", 2, none, none⟩] } :
        WishlistItem).selectedOptionId =
      (saveNewItem "i1" "n" 3 none none 0).selectedOptionId ∧
    ((saveNewItem "i2" "m" 7 none none 1).options = none ∧
      (saveNewItem "i2" "m" 7 none none 1).selectedOptionId = none) ∧
    ((saveNewItem "i1" "n" 3 none none 0).selectedOptionId = none →
      getCurrentDisplayItem
          { saveNewItem "i1" "n" 3 none none 0 with
            options := some [⟨"o1", "on", 2, none, none⟩] } =
        { saveNewItem "i1" "n" 3 none none 0 with
          options := some [⟨"o1", "on", 2, none, none⟩] }) :=
  addOptionToItem_autoselect "i1" ⟨"o1", "on", 2, none, none⟩
    (saveNewItem "i1" "n" 3 none none 0) "i2" "m" 7 none none 1 (by decide)

end Hangfire
